import Mathlib

/-!
Verification of the fastapi-greeting-api repository (notebook
fast-api-greeting-server.ipynb, final combined application cell together
with the root endpoint of the first cell).

The handler functions are translated directly from the source.  The
request-binding, validation and CORS layers are FastAPI / Starlette /
Pydantic framework behaviour configured declaratively in the source; those
parts are modelled from the specification and marked as such in their doc
comments.
-/

namespace GreetingApi

/-- JSON values, as decoded from a request body or produced as a response
body.  Objects are association lists of key/value pairs (a decoded Python
dict, so keys are unique). -/
inductive Json where
  | null : Json
  | bool : Bool → Json
  | num : Int → Json
  | str : String → Json
  | arr : List Json → Json
  | obj : List (String × Json) → Json

/-- The keys of a JSON object (empty for non-objects). -/
def Json.keys : Json → List String
  | Json.obj fields => fields.map Prod.fst
  | _ => []

/-- Field lookup on a decoded JSON object; none for non-objects or absent
keys. -/
def jsonField (j : Json) (key : String) : Option Json :=
  match j with
  | Json.obj fields => fields.lookup key
  | _ => none

/-- An HTTP response: status code, response headers, JSON body. -/
structure Response where
  status : Nat
  headers : List (String × String)
  body : Json

/-- The greeting template shared by all handlers: the Python f-string
f"Hello \x7bname\x7d" from the source, i.e. the literal "Hello " followed by
the name verbatim. -/
def greeting (name : String) : String := "Hello " ++ name

/-- Handler greet_get from the source: returns the message object for a
bound name. -/
def greet_get (name : String) : Json :=
  Json.obj [("message", Json.str (greeting name))]

/-- Handler greet_post from the source: returns the message object for the
name field of the validated request model. -/
def greet_post (name : String) : Json :=
  Json.obj [("message", Json.str (greeting name))]

/-- Handler root from the source: returns the fixed Hello World message. -/
def root : Json := Json.obj [("message", Json.str "Hello World")]

/-- The Pydantic request model NameRequest from the source: one required
string field name. -/
structure NameRequest where
  name : String

/-- Query binding for GET /greet, from the source declaration
Query with default "World": an absent query parameter is replaced by the
literal default before the handler runs. -/
def bindQueryName (queryName : Option String) : String :=
  queryName.getD "World"

/-- The GET /greet endpoint: query binding followed by the greet_get
handler.  The binding always succeeds, so the status is always 200. -/
def greetGetEndpoint (queryName : Option String) : Response :=
  { status := 200, headers := [], body := greet_get (bindQueryName queryName) }

/-- Modelled from the spec: Pydantic validation of the request body against
NameRequest (framework code, not in the repository).  The decoded object
must contain a name field of string type; extra fields are ignored; a
missing or wrong-typed field, or a non-object body, fails validation. -/
def validateNameRequest (body : Json) : Option NameRequest :=
  match jsonField body "name" with
  | some (Json.str s) => some { name := s }
  | _ => none

/-- Modelled from the spec: the FastAPI body binding for POST /greet
(framework code, not in the repository).  The argument is none when the
request body is not valid JSON.  On decode or validation failure the
request is rejected with a 422 client error carrying a structured detail
explanation, before the handler is invoked; otherwise the greet_post
handler runs on the validated model. -/
def greetPostEndpoint (body : Option Json) : Response :=
  match body with
  | none =>
      { status := 422, headers := [],
        body := Json.obj [("detail", Json.str "Invalid JSON body")] }
  | some j =>
      match validateNameRequest j with
      | none =>
          { status := 422, headers := [],
            body := Json.obj [("detail", Json.str "field required: name (string)")] }
      | some req =>
          { status := 200, headers := [], body := greet_post req.name }

/-- The GET / endpoint: no input, the root handler always runs. -/
def rootEndpoint : Response := { status := 200, headers := [], body := root }

/-- The CORS origin allow-list configured in the source call to
add_middleware. -/
def allow_origins : List String :=
  ["http://localhost:8000", "http://127.0.0.1:8000", "https://chrwittm.github.io"]

/-- The permissive cross-origin response headers for an allowed origin:
the origin is echoed, and the source configures allow_credentials true and
wildcard methods and headers. -/
def corsPermissiveHeaders (origin : String) : List (String × String) :=
  [("access-control-allow-origin", origin),
   ("access-control-allow-credentials", "true"),
   ("access-control-allow-methods", "*"),
   ("access-control-allow-headers", "*")]

/-- Whether a request declares an origin that is in the allow-list. -/
def allowedOrigin (allowed : List String) (origin : Option String) : Bool :=
  match origin with
  | some o => allowed.contains o
  | none => false

/-- Modelled from the spec: CORSMiddleware preflight handling (framework
code, not in the repository).  An OPTIONS request is answered immediately,
without reaching any handler: 200 with the permissive headers when the
declared origin is in the allow-list, otherwise (origin absent or not
recognized) a 400-class rejection carrying no permissive headers. -/
def preflight (allowed : List String) (origin : Option String) : Response :=
  match origin with
  | some o =>
      if allowed.contains o then
        { status := 200, headers := corsPermissiveHeaders o, body := Json.str "OK" }
      else
        { status := 400, headers := [], body := Json.str "Disallowed CORS origin" }
  | none => { status := 400, headers := [], body := Json.str "Disallowed CORS origin" }

/-- Modelled from the spec: CORSMiddleware treatment of actual (non-
preflight) requests (framework code, not in the repository).  The handler
response passes through unchanged except that the permissive headers are
prepended exactly when the declared origin is in the allow-list; requests
without an Origin header are unaffected. -/
def applyCors (allowed : List String) (origin : Option String) (r : Response) : Response :=
  match origin with
  | some o =>
      if allowed.contains o then
        { r with headers := corsPermissiveHeaders o ++ r.headers }
      else r
  | none => r

/-- The HTTP methods routed by the application. -/
inductive Method where
  | get | post | options

/-- An inbound HTTP request, as far as the application inspects it. -/
structure Request where
  method : Method
  path : String
  origin : Option String
  queryName : Option String
  jsonBody : Option Json

/-- The 404 response produced by the framework router for unknown paths. -/
def notFound : Response :=
  { status := 404, headers := [], body := Json.obj [("detail", Json.str "Not Found")] }

/-- The whole application: CORS preflight interception for OPTIONS, then
routing by method and path to the three endpoints, with the CORS policy
applied to every actual response. -/
def handleRequest (allowed : List String) (req : Request) : Response :=
  match req.method with
  | Method.options => preflight allowed req.origin
  | Method.get =>
      applyCors allowed req.origin
        (if req.path = "/" then rootEndpoint
         else if req.path = "/greet" then greetGetEndpoint req.queryName
         else notFound)
  | Method.post =>
      applyCors allowed req.origin
        (if req.path = "/greet" then greetPostEndpoint req.jsonBody
         else notFound)

/-- The server state: only the read-only configuration installed at
startup.  The source registers no mutable state of any kind. -/
structure ServerState where
  allowOrigins : List String

/-- One request step of the server: the handler computes the response from
the configuration and the request, and the state passes through. -/
def handleRequestSt (s : ServerState) (req : Request) : Response × ServerState :=
  (handleRequest s.allowOrigins req, s)

/-- The server run on a sequence of requests, threading the state. -/
def serve (s : ServerState) : List Request → List Response
  | [] => []
  | r :: rs =>
      let p := handleRequestSt s r
      p.1 :: serve p.2 rs

end GreetingApi
namespace GreetingApi

/-- Validation succeeds producing the model with name n exactly when the
decoded body has a string-typed name field whose value is n. -/
theorem validateNameRequest_eq_some (j : Json) (n : String) :
    validateNameRequest j = some { name := n } ↔ jsonField j "name" = some (Json.str n) := by
  unfold validateNameRequest
  cases k : jsonField j "name" with
  | none => simp
  | some v => cases v <;> simp

/-- Claim C1: for every string name, both the GET binding (query parameter)
and the POST binding (JSON body field) of the greet route return status 200
with a body whose message field is the literal "Hello " concatenated with
the name, with no trimming, casing or escaping transformation applied. -/
theorem c1_literal_greeting (n : String) :
    greetGetEndpoint (some n) =
      { status := 200, headers := [],
        body := Json.obj [("message", Json.str ("Hello " ++ n))] } ∧
    greetPostEndpoint (some (Json.obj [("name", Json.str n)])) =
      { status := 200, headers := [],
        body := Json.obj [("message", Json.str ("Hello " ++ n))] } :=
  ⟨rfl, rfl⟩

/-- Claim C2: POST greet returns 200 exactly when the body is valid JSON
whose decoded object has a string-typed name field; otherwise (invalid
JSON, missing field, or wrong-typed field) the status is a 4xx client
error, never 200, and never a crash (the endpoint is a total function);
and whenever a string name field is present the handler runs and produces
the greeting. -/
theorem c2_post_validation_gate (b : Option Json) :
    ((greetPostEndpoint b).status = 200 ↔
       ∃ j n, b = some j ∧ jsonField j "name" = some (Json.str n)) ∧
    ((greetPostEndpoint b).status = 200 ∨
       ((greetPostEndpoint b).status = 422 ∧ 400 ≤ (greetPostEndpoint b).status ∧
         (greetPostEndpoint b).status < 500)) ∧
    (∀ j n, b = some j → jsonField j "name" = some (Json.str n) →
       greetPostEndpoint b =
         { status := 200, headers := [],
           body := Json.obj [("message", Json.str ("Hello " ++ n))] }) := by
  cases b with
  | none =>
      refine ⟨?_, Or.inr (by simp [greetPostEndpoint]), ?_⟩
      · simp [greetPostEndpoint]
      · intro j n h; exact absurd h (by simp)
  | some j =>
      cases k : validateNameRequest j with
      | none =>
          have hn : ∀ n, ¬ jsonField j "name" = some (Json.str n) := by
            intro n hf
            have h2 := (validateNameRequest_eq_some j n).mpr hf
            rw [k] at h2
            exact Option.noConfusion h2
          refine ⟨?_, Or.inr (by simp [greetPostEndpoint, k]), ?_⟩
          · constructor
            · intro h
              simp [greetPostEndpoint, k] at h
            · rintro ⟨j2, n, hj, hf⟩
              injection hj with hj2
              subst hj2
              exact absurd hf (hn n)
          · intro j2 n hj hfn
            injection hj with e
            subst e
            exact absurd hfn (hn n)
      | some req =>
          have hf : jsonField j "name" = some (Json.str req.name) :=
            (validateNameRequest_eq_some j req.name).mp (by rw [k])
          refine ⟨?_, Or.inl (by simp [greetPostEndpoint, k, greet_post]), ?_⟩
          · constructor
            · intro _
              exact ⟨j, req.name, rfl, hf⟩
            · intro _
              simp [greetPostEndpoint, k, greet_post]
          · intro j2 n hj hfn
            injection hj with e
            subst e
            have h2 : some (Json.str req.name) = some (Json.str n) := by
              rw [← hf, hfn]
            injection h2 with h3
            injection h3 with h4
            subst h4
            simp [greetPostEndpoint, k, greet_post, greeting]

/-- Claim C3: GET greet with no name query parameter always succeeds: the
binding substitutes the literal default "World" before the handler runs,
and the response is status 200 with the Hello World message body. -/
theorem c3_get_default_world :
    bindQueryName none = "World" ∧
    greetGetEndpoint none = { status := 200, headers := [], body := greet_get "World" } ∧
    greetGetEndpoint none =
      { status := 200, headers := [],
        body := Json.obj [("message", Json.str "Hello World")] } :=
  ⟨rfl, rfl, rfl⟩

/-- Claim C4: an OPTIONS preflight answers 200 exactly when the declared
origin is in the allow-set, in which case the response carries the
permissive headers echoing the origin; when the origin is absent or not in
the allow-set the response is a 400-class rejection carrying no permissive
headers. -/
theorem c4_preflight_gate (o : String) :
    ((preflight allow_origins (some o)).status = 200 ↔ allow_origins.contains o = true) ∧
    (allow_origins.contains o = true →
        preflight allow_origins (some o) =
          { status := 200, headers := corsPermissiveHeaders o, body := Json.str "OK" }) ∧
    (allow_origins.contains o = false →
        (preflight allow_origins (some o)).status = 400 ∧
        (preflight allow_origins (some o)).headers = []) ∧
    (preflight allow_origins none).status = 400 ∧
    (preflight allow_origins none).headers = [] := by
  by_cases hm : o ∈ allow_origins <;>
    refine ⟨?_, ?_, ?_, rfl, rfl⟩ <;> simp [preflight, hm]

/-- Claim C5: for actual (non-preflight) requests the permissive
cross-origin headers are attached exactly when the declared origin is in
the configured allow-set (the three origins of the source), requests with
no Origin header pass through unchanged, and the policy never changes the
handler's status or body. -/
theorem c5_actual_request_cors (o : String) (r : Response) :
    allow_origins = ["http://localhost:8000", "http://127.0.0.1:8000", "https://chrwittm.github.io"] ∧
    applyCors allow_origins none r = r ∧
    (applyCors allow_origins (some o) r).status = r.status ∧
    (applyCors allow_origins (some o) r).body = r.body ∧
    ((applyCors allow_origins (some o) r).headers = corsPermissiveHeaders o ++ r.headers
       ↔ allow_origins.contains o = true) ∧
    (allow_origins.contains o = false → applyCors allow_origins (some o) r = r) := by
  by_cases hm : o ∈ allow_origins
  · refine ⟨rfl, rfl, ?_, ?_, ?_, ?_⟩ <;> simp [applyCors, hm]
  · refine ⟨rfl, rfl, ?_, ?_, ?_, ?_⟩
    · simp [applyCors, hm]
    · simp [applyCors, hm]
    · have hc : allow_origins.contains o = false := by simp [hm]
      simp only [applyCors, hc, Bool.false_eq_true, if_false]
      constructor
      · intro he
        have hl := congrArg List.length he
        simp only [List.length_append, corsPermissiveHeaders, List.length_cons,
          List.length_nil] at hl
        omega
      · intro h2
        exact h2.elim
    · intro _
      simp [applyCors, hm]

/-- Claim C6: GET on the root path takes no input, always succeeds, and
returns status 200 with the Hello World message body. -/
theorem c6_root_hello_world :
    rootEndpoint =
      { status := 200, headers := [],
        body := Json.obj [("message", Json.str "Hello World")] } := rfl

/-- Claim C7: the two HTTP operations on the greet route resolve to the
same greeting computation: for every string n, the GET response for query
parameter n equals the POST response for a JSON body whose name field is
n. -/
theorem c7_get_post_same_computation (n : String) :
    greetGetEndpoint (some n) =
      greetPostEndpoint (some (Json.obj [("name", Json.str n)])) := rfl

/-- Claim C8 counterexample: the service does not always emit a body that
is an object with the single key message: POST greet with the empty JSON
object is answered 422 with a body whose only key is detail, so the claim
fails at this concrete input. -/
theorem c8_counterexample :
    (greetPostEndpoint (some (Json.obj []))).status = 422 ∧
    Json.keys (greetPostEndpoint (some (Json.obj []))).body = ["detail"] ∧
    ¬ "message" ∈ Json.keys (greetPostEndpoint (some (Json.obj []))).body :=
  ⟨rfl, rfl, by decide⟩

/-- Claim C8 (amended): every success (status 200) response of the root
and greet endpoints has a body that is a JSON object with exactly one key,
message, whose value is "Hello " concatenated with the resolved name. -/
theorem c8_success_body_shape (q : Option String) (b : Option Json) :
    (rootEndpoint.status = 200 ∧
      rootEndpoint.body = Json.obj [("message", Json.str (greeting "World"))]) ∧
    ((greetGetEndpoint q).status = 200 ∧
      (greetGetEndpoint q).body =
        Json.obj [("message", Json.str (greeting (bindQueryName q)))]) ∧
    ((greetPostEndpoint b).status = 200 →
      ∃ n, (greetPostEndpoint b).body =
        Json.obj [("message", Json.str (greeting n))]) := by
  refine ⟨⟨rfl, rfl⟩, ⟨rfl, rfl⟩, ?_⟩
  cases b with
  | none => intro h; simp [greetPostEndpoint] at h
  | some j =>
      cases k : validateNameRequest j with
      | none => intro h; simp [greetPostEndpoint, k] at h
      | some req =>
          intro _
          exact ⟨req.name, by simp [greetPostEndpoint, k, greet_post]⟩

/-- Claim C9: request handling is deterministic and side-effect-free: one
step never changes the server state, and the responses of any request
sequence are the pointwise image of the handler on the individual
requests, so repeating a request any number of times, in any order and
interleaved with any other requests, yields identical responses. -/
theorem c9_stateless_deterministic (s : ServerState) (rs : List Request) (r : Request) :
    (handleRequestSt s r).2 = s ∧
    serve s rs = rs.map (fun q => (handleRequestSt s q).1) := by
  refine ⟨rfl, ?_⟩
  induction rs with
  | nil => rfl
  | cons a tl ih => simp [serve, handleRequestSt] at ih ⊢; exact ih

/-- Claim C10: a JSON object body whose name field is a string is accepted
by POST greet with status 200 even when other, unknown fields are present:
the extra fields are ignored and the response depends only on the name
field. -/
theorem c10_extra_fields_ignored (fields : List (String × Json)) (n : String)
    (h : fields.lookup "name" = some (Json.str n)) :
    greetPostEndpoint (some (Json.obj fields)) =
      { status := 200, headers := [],
        body := Json.obj [("message", Json.str ("Hello " ++ n))] } := by
  simp [greetPostEndpoint, validateNameRequest, jsonField, h, greet_post, greeting]

/-- Witness for claim C10: a body with two extra fields around a string
name field is accepted and greeted. -/
theorem c10_witness :
    greetPostEndpoint (some (Json.obj
        [("extra", Json.num 7), ("name", Json.str "Alice"), ("id", Json.num 3)])) =
      { status := 200, headers := [],
        body := Json.obj [("message", Json.str "Hello Alice")] } :=
  c10_extra_fields_ignored
    [("extra", Json.num 7), ("name", Json.str "Alice"), ("id", Json.num 3)] "Alice" rfl

end GreetingApi
